import Mathlib

/-!
Verification of the datatype-description and buffer-abstraction subsystem of
rsmpi (`src/datatype/mod.rs`).

The foreign MPI runtime is modelled by an explicit trace of foreign calls
(`MPIEvent`, `MPIState`); the wrapper code from the source is embedded as
pure functions over that state.  Memory addresses are modelled as natural
numbers carried alongside values (`Loc`) and slices (`Slice`).
-/

/-- Modelled from the spec: the opaque foreign datatype handle (`MPI_Datatype`
from the `ffi` module, which is not under `src/`).  The spec describes a fixed
table of pre-registered handles, one per supported primitive scalar kind, a
well-known null sentinel, and runtime-created handles; each is a distinct
identifier. -/
inductive MPI_Datatype where
  | null
  | float
  | double
  | int8
  | int16
  | int32
  | int64
  | uint8
  | uint16
  | uint32
  | uint64
  | user (id : Nat)
deriving DecidableEq

/-- Modelled from the spec: the pre-registered handle for `f32` (`ffi::RSMPI_FLOAT`). -/
def ffi.RSMPI_FLOAT : MPI_Datatype := .float

/-- Modelled from the spec: the pre-registered handle for `f64` (`ffi::RSMPI_DOUBLE`). -/
def ffi.RSMPI_DOUBLE : MPI_Datatype := .double

/-- Modelled from the spec: the pre-registered handle for `i8` (`ffi::RSMPI_INT8_T`). -/
def ffi.RSMPI_INT8_T : MPI_Datatype := .int8

/-- Modelled from the spec: the pre-registered handle for `i16` (`ffi::RSMPI_INT16_T`). -/
def ffi.RSMPI_INT16_T : MPI_Datatype := .int16

/-- Modelled from the spec: the pre-registered handle for `i32` (`ffi::RSMPI_INT32_T`). -/
def ffi.RSMPI_INT32_T : MPI_Datatype := .int32

/-- Modelled from the spec: the pre-registered handle for `i64` (`ffi::RSMPI_INT64_T`). -/
def ffi.RSMPI_INT64_T : MPI_Datatype := .int64

/-- Modelled from the spec: the pre-registered handle for `u8` (`ffi::RSMPI_UINT8_T`). -/
def ffi.RSMPI_UINT8_T : MPI_Datatype := .uint8

/-- Modelled from the spec: the pre-registered handle for `u16` (`ffi::RSMPI_UINT16_T`). -/
def ffi.RSMPI_UINT16_T : MPI_Datatype := .uint16

/-- Modelled from the spec: the pre-registered handle for `u32` (`ffi::RSMPI_UINT32_T`). -/
def ffi.RSMPI_UINT32_T : MPI_Datatype := .uint32

/-- Modelled from the spec: the pre-registered handle for `u64` (`ffi::RSMPI_UINT64_T`). -/
def ffi.RSMPI_UINT64_T : MPI_Datatype := .uint64

/-- Modelled from the spec: the well-known null sentinel (`ffi::RSMPI_DATATYPE_NULL`). -/
def ffi.RSMPI_DATATYPE_NULL : MPI_Datatype := .null

/-- The Rust primitive cast `n as Count` for `n : usize`: keep the low 32 bits
and reinterpret them as a two's-complement signed 32-bit value.  This embeds
the unchecked cast written in `impl Buffer for [T]::count`. -/
def usizeAsCount (n : Nat) : Int :=
  if n % 2 ^ 32 < 2 ^ 31 then ((n % 2 ^ 32 : Nat) : Int)
  else ((n % 2 ^ 32 : Nat) : Int) - 2 ^ 32

/-- The `RawDatatype` trait: can identify as an `MPI_Datatype`.  The Rust
method is `unsafe`; the capability itself is pure. -/
class RawDatatype (δ : Type) where
  raw : δ → MPI_Datatype

/-- Models a Rust shared reference `&D` to a datatype-representing value. -/
structure Ref (δ : Type) where
  val : δ

/-- The `impl<'a, D: RawDatatype> RawDatatype for &'a D` blanket impl:
`raw(&self)` dereferences and delegates, `(*self).raw()`. -/
instance instRawDatatypeRef {δ : Type} [RawDatatype δ] : RawDatatype (Ref δ) where
  raw r := RawDatatype.raw r.val

/-- `SystemDatatype`: copyable wrapper around a pre-registered handle. -/
structure SystemDatatype where
  handle : MPI_Datatype
deriving DecidableEq

instance : RawDatatype SystemDatatype where
  raw d := d.handle

/-- `UserDatatype`: owns a runtime-created handle. -/
structure UserDatatype where
  handle : MPI_Datatype
deriving DecidableEq

instance : RawDatatype UserDatatype where
  raw d := d.handle

/-- One foreign call into the MPI datatype subsystem, recorded with the exact
arguments the wrapper passed. -/
inductive MPIEvent where
  | typeContiguous (count : Int) (oldtype : MPI_Datatype) (newId : Nat)
  | typeVector (count blocklength stride : Int) (oldtype : MPI_Datatype) (newId : Nat)
  | typeCommit (h : MPI_Datatype)
  | typeFree (h : MPI_Datatype)
deriving DecidableEq

/-- The foreign runtime's observable state: a supply of fresh handle ids and
the chronological trace of foreign calls made so far. -/
structure MPIState where
  nextId : Nat
  trace : List MPIEvent
deriving DecidableEq

/-- Modelled from the spec: `construct_contiguous(count, oldtype_handle) →
new_handle` — the foreign `MPI_Type_contiguous` call (not under `src/`).
It returns a fresh handle and records the call. -/
def MPI_Type_contiguous (st : MPIState) (count : Int) (oldtype : MPI_Datatype) :
    MPIState × MPI_Datatype :=
  (⟨st.nextId + 1, st.trace ++ [.typeContiguous count oldtype st.nextId]⟩,
   .user st.nextId)

/-- Modelled from the spec: `construct_vector(count, blocklength, stride,
oldtype_handle) → new_handle` — the foreign `MPI_Type_vector` call. -/
def MPI_Type_vector (st : MPIState) (count blocklength stride : Int)
    (oldtype : MPI_Datatype) : MPIState × MPI_Datatype :=
  (⟨st.nextId + 1, st.trace ++ [.typeVector count blocklength stride oldtype st.nextId]⟩,
   .user st.nextId)

/-- Modelled from the spec: `commit(handle)` — the foreign `MPI_Type_commit`
call, required after construction, before any use. -/
def MPI_Type_commit (st : MPIState) (h : MPI_Datatype) : MPIState :=
  ⟨st.nextId, st.trace ++ [.typeCommit h]⟩

/-- Modelled from the spec: `free(handle)` — the foreign `MPI_Type_free` call
"releases the resource, sets `handle` to the null sentinel".  Returns the
value the runtime writes back through the `&mut` out-parameter. -/
def MPI_Type_free (_h : MPI_Datatype) : MPI_Datatype :=
  ffi.RSMPI_DATATYPE_NULL

/-- `UserDatatype::contiguous`: construct then commit, back-to-back, and wrap
the committed handle.  Total: no argument validation, no error branch. -/
def UserDatatype.contiguous {δ : Type} [RawDatatype δ] (st : MPIState)
    (count : Int) (oldtype : δ) : MPIState × UserDatatype :=
  let r := MPI_Type_contiguous st count (RawDatatype.raw oldtype)
  let st2 := MPI_Type_commit r.1 r.2
  (st2, ⟨r.2⟩)

/-- `UserDatatype::vector`: construct then commit, back-to-back, and wrap the
committed handle.  Total: no argument validation, no error branch. -/
def UserDatatype.vector {δ : Type} [RawDatatype δ] (st : MPIState)
    (count blocklength stride : Int) (oldtype : δ) : MPIState × UserDatatype :=
  let r := MPI_Type_vector st count blocklength stride (RawDatatype.raw oldtype)
  let st2 := MPI_Type_commit r.1 r.2
  (st2, ⟨r.2⟩)

/-- Outcome of the `assert_eq!(self.0, ffi::RSMPI_DATATYPE_NULL)` in
`impl Drop for UserDatatype`: either the assertion passes or the process
aborts with the offending handle value. -/
inductive DropOutcome where
  | ok
  | assertFailed (observed : MPI_Datatype)
deriving DecidableEq

/-- `impl Drop for UserDatatype`, parameterised by the effect `freeImpl` the
foreign free has on the handle out-parameter (the conforming effect is
`MPI_Type_free`).  It makes exactly one free call, then asserts the stored
handle now equals the null sentinel.  Returns the new state, the handle value
after the free, and the assertion outcome. -/
def UserDatatype.dropWith (freeImpl : MPI_Datatype → MPI_Datatype)
    (st : MPIState) (d : UserDatatype) : MPIState × MPI_Datatype × DropOutcome :=
  let h2 := freeImpl d.handle
  let st2 : MPIState := ⟨st.nextId, st.trace ++ [.typeFree d.handle]⟩
  (st2, h2, if h2 = ffi.RSMPI_DATATYPE_NULL then .ok else .assertFailed h2)

/-- `impl Drop for UserDatatype` under the spec-conforming foreign free. -/
def UserDatatype.drop (st : MPIState) (d : UserDatatype) :
    MPIState × MPI_Datatype × DropOutcome :=
  UserDatatype.dropWith MPI_Type_free st d

/-- Lifecycle states of a composite descriptor handle (spec section 4.6). -/
inductive DatatypeState where
  | uninit
  | committed
  | freed
deriving DecidableEq

/-- Effect of one recorded foreign call on the lifecycle state of handle `h`:
construction puts the fresh handle in the transient uncommitted state, commit
makes it usable, free makes it terminal. -/
def lifecycleStep (s : DatatypeState) (h : MPI_Datatype) (e : MPIEvent) :
    DatatypeState :=
  match e with
  | .typeContiguous _ _ i => if MPI_Datatype.user i = h then .uninit else s
  | .typeVector _ _ _ _ i => if MPI_Datatype.user i = h then .uninit else s
  | .typeCommit h2 => if h2 = h then .committed else s
  | .typeFree h2 => if h2 = h then .freed else s

/-- Lifecycle state of handle `h` after the chronological trace `tr`. -/
def lifecycleState (tr : List MPIEvent) (h : MPI_Datatype) : DatatypeState :=
  tr.foldl (fun s e => lifecycleStep s h e) .uninit

/-- Whether a recorded foreign call names the handle `h`. -/
def MPIEvent.touches (e : MPIEvent) (h : MPI_Datatype) : Bool :=
  match e with
  | .typeContiguous _ _ i => MPI_Datatype.user i = h
  | .typeVector _ _ _ _ i => MPI_Datatype.user i = h
  | .typeCommit h2 => h2 = h
  | .typeFree h2 => h2 = h

/-- The runtime-created handle ids named by one recorded foreign call. -/
def MPIEvent.userIds (e : MPIEvent) : List Nat :=
  match e with
  | .typeContiguous _ _ i => [i]
  | .typeVector _ _ _ _ i => [i]
  | .typeCommit h2 => match h2 with | .user i => [i] | _ => []
  | .typeFree h2 => match h2 with | .user i => [i] | _ => []

/-- Handle-supply invariant of the foreign runtime model: every runtime-created
handle id already named in the trace was drawn from the supply. -/
def MPIState.wf (st : MPIState) : Prop :=
  ∀ e ∈ st.trace, ∀ i ∈ e.userIds, i < st.nextId

instance (st : MPIState) : Decidable st.wf := by
  unfold MPIState.wf
  infer_instance

/-- The `EquivalentDatatype` trait: a direct equivalence between the
implementing type and an MPI datatype.  Every impl in the source returns a
`SystemDatatype`. -/
class EquivalentDatatype (α : Type) where
  equivalent_datatype : SystemDatatype

/-- Carrier for the Rust scalar type `f32`; values are opaque bit patterns. -/
structure f32 where
  bits : Nat
deriving DecidableEq

/-- Carrier for the Rust scalar type `f64`. -/
structure f64 where
  bits : Nat
deriving DecidableEq

/-- Carrier for the Rust scalar type `i8`. -/
structure i8 where
  bits : Nat
deriving DecidableEq

/-- Carrier for the Rust scalar type `i16`. -/
structure i16 where
  bits : Nat
deriving DecidableEq

/-- Carrier for the Rust scalar type `i32`. -/
structure i32 where
  bits : Nat
deriving DecidableEq

/-- Carrier for the Rust scalar type `i64`. -/
structure i64 where
  bits : Nat
deriving DecidableEq

/-- Carrier for the Rust scalar type `u8`. -/
structure u8 where
  bits : Nat
deriving DecidableEq

/-- Carrier for the Rust scalar type `u16`. -/
structure u16 where
  bits : Nat
deriving DecidableEq

/-- Carrier for the Rust scalar type `u32`. -/
structure u32 where
  bits : Nat
deriving DecidableEq

/-- Carrier for the Rust scalar type `u64`. -/
structure u64 where
  bits : Nat
deriving DecidableEq

instance : EquivalentDatatype f32 := ⟨⟨ffi.RSMPI_FLOAT⟩⟩

instance : EquivalentDatatype f64 := ⟨⟨ffi.RSMPI_DOUBLE⟩⟩

instance : EquivalentDatatype i8 := ⟨⟨ffi.RSMPI_INT8_T⟩⟩

instance : EquivalentDatatype i16 := ⟨⟨ffi.RSMPI_INT16_T⟩⟩

instance : EquivalentDatatype i32 := ⟨⟨ffi.RSMPI_INT32_T⟩⟩

instance : EquivalentDatatype i64 := ⟨⟨ffi.RSMPI_INT64_T⟩⟩

instance : EquivalentDatatype u8 := ⟨⟨ffi.RSMPI_UINT8_T⟩⟩

instance : EquivalentDatatype u16 := ⟨⟨ffi.RSMPI_UINT16_T⟩⟩

instance : EquivalentDatatype u32 := ⟨⟨ffi.RSMPI_UINT32_T⟩⟩

instance : EquivalentDatatype u64 := ⟨⟨ffi.RSMPI_UINT64_T⟩⟩

/-- The closed set of supported primitive scalar kinds (the ten
`equivalent_system_datatype!` invocations). -/
inductive ScalarKind where
  | kf32
  | kf64
  | ki8
  | ki16
  | ki32
  | ki64
  | ku8
  | ku16
  | ku32
  | ku64
deriving DecidableEq, Fintype

/-- The descriptor each supported scalar kind's `equivalent_datatype()` call
returns. -/
def ScalarKind.descriptor : ScalarKind → SystemDatatype
  | .kf32 => @EquivalentDatatype.equivalent_datatype f32 _
  | .kf64 => @EquivalentDatatype.equivalent_datatype f64 _
  | .ki8 => @EquivalentDatatype.equivalent_datatype i8 _
  | .ki16 => @EquivalentDatatype.equivalent_datatype i16 _
  | .ki32 => @EquivalentDatatype.equivalent_datatype i32 _
  | .ki64 => @EquivalentDatatype.equivalent_datatype i64 _
  | .ku8 => @EquivalentDatatype.equivalent_datatype u8 _
  | .ku16 => @EquivalentDatatype.equivalent_datatype u16 _
  | .ku32 => @EquivalentDatatype.equivalent_datatype u32 _
  | .ku64 => @EquivalentDatatype.equivalent_datatype u64 _

/-- The pre-registered system handle for each scalar kind, as written in the
ten macro invocations. -/
def ScalarKind.systemHandle : ScalarKind → MPI_Datatype
  | .kf32 => ffi.RSMPI_FLOAT
  | .kf64 => ffi.RSMPI_DOUBLE
  | .ki8 => ffi.RSMPI_INT8_T
  | .ki16 => ffi.RSMPI_INT16_T
  | .ki32 => ffi.RSMPI_INT32_T
  | .ki64 => ffi.RSMPI_INT64_T
  | .ku8 => ffi.RSMPI_UINT8_T
  | .ku16 => ffi.RSMPI_UINT16_T
  | .ku32 => ffi.RSMPI_UINT32_T
  | .ku64 => ffi.RSMPI_UINT64_T

/-- A value of type `α` located at a memory address: models `&T` / `&mut T`
pointing at a live value. -/
structure Loc (α : Type) where
  addr : Nat
  val : α
deriving DecidableEq

/-- A slice of elements of type `α`: base address (where the first element
lives), element size in bytes, and contents.  `as_ptr()` returns `addr`. -/
structure Slice (α : Type) where
  addr : Nat
  elemSize : Nat
  data : List α
deriving DecidableEq

/-- Address of element `i` of a slice. -/
def Slice.elem_addr {α : Type} (s : Slice α) (i : Nat) : Nat :=
  s.addr + i * s.elemSize

/-- `impl<T> Datatype for T where T: EquivalentDatatype`: `datatype()` ignores
the value and returns the registry entry. -/
def Loc.datatype {α : Type} [EquivalentDatatype α] (_x : Loc α) : SystemDatatype :=
  @EquivalentDatatype.equivalent_datatype α _

/-- `impl<T> Datatype for [T] where T: EquivalentDatatype`. -/
def Slice.datatype {α : Type} [EquivalentDatatype α] (_s : Slice α) : SystemDatatype :=
  @EquivalentDatatype.equivalent_datatype α _

/-- `impl<T> Buffer for T`: `fn count(&self) -> Count { 1 }` (with `Count = i32` embedded as `Int`). -/
def Loc.count {α : Type} [EquivalentDatatype α] (_x : Loc α) : Int := 1

/-- `impl<T> Buffer for T`: `send_address` is the value's own address. -/
def Loc.send_address {α : Type} [EquivalentDatatype α] (x : Loc α) : Nat := x.addr

/-- `impl<T> Buffer for T`: `receive_address` through a mutable borrow. -/
def Loc.receive_address {α : Type} [EquivalentDatatype α] (x : Loc α) : Nat := x.addr

/-- `impl<T> Buffer for [T]`: `fn count(&self) -> Count { self.len() as Count }`
— the unchecked primitive cast (the source carries a FIXME asking for a
checked cast here). -/
def Slice.count {α : Type} [EquivalentDatatype α] (s : Slice α) : Int :=
  usizeAsCount s.data.length

/-- `impl<T> Buffer for [T]`: `send_address` is `self.as_ptr()`. -/
def Slice.send_address {α : Type} [EquivalentDatatype α] (s : Slice α) : Nat := s.addr

/-- `impl<T> Buffer for [T]`: `receive_address` is `self.as_mut_ptr()`. -/
def Slice.receive_address {α : Type} [EquivalentDatatype α] (s : Slice α) : Nat := s.addr

/-- `View<'a, 'b, T, D>`: a buffer with a user-specified count and datatype
over a borrowed slice. -/
structure View (α δ : Type) [RawDatatype δ] where
  datatype : Ref δ
  count : Int
  buffer : Slice α

/-- `View::with_count_and_datatype`: stores the three arguments unchanged; no
bound check between (count, datatype) and the slice's byte extent. -/
def View.with_count_and_datatype {α δ : Type} [RawDatatype δ] (buffer : Slice α)
    (count : Int) (datatype : Ref δ) : View α δ :=
  ⟨datatype, count, buffer⟩

/-- `impl Buffer for View`: `send_address` comes from the underlying slice. -/
def View.send_address {α δ : Type} [RawDatatype δ] (v : View α δ) : Nat :=
  v.buffer.addr

/-- `impl Buffer for View`: `receive_address` comes from the underlying slice. -/
def View.receive_address {α δ : Type} [RawDatatype δ] (v : View α δ) : Nat :=
  v.buffer.addr

/-- A concrete runtime state in which one composite datatype was constructed,
committed, and then freed; used to exercise the lifecycle theorems. -/
def sampleFreedState : MPIState :=
  ⟨1, [.typeContiguous 2 .float 0, .typeCommit (.user 0), .typeFree (.user 0)]⟩

/-- A concrete slice of `u8` whose length `2 ^ 31` exceeds the signed 32-bit
count range. -/
def overflowSlice : Slice u8 :=
  ⟨0, 1, List.replicate (2 ^ 31) ⟨0⟩⟩

/-- A concrete slice of `u8` of length `2 ^ 32`, whose wrapped count is zero. -/
def wrapToZeroSlice : Slice u8 :=
  ⟨0, 1, List.replicate (2 ^ 32) ⟨0⟩⟩

section Lemmas

/-- The trace extension performed by `UserDatatype::contiguous`: exactly the
construct call followed immediately by the commit call. -/
theorem contiguous_trace {δ : Type} [RawDatatype δ] (st : MPIState) (c : Int)
    (old : δ) :
    (UserDatatype.contiguous st c old).1.trace =
      st.trace ++ [.typeContiguous c (RawDatatype.raw old) st.nextId,
                   .typeCommit (.user st.nextId)] := by
  simp [UserDatatype.contiguous, MPI_Type_contiguous, MPI_Type_commit]

/-- The trace extension performed by `UserDatatype::vector`. -/
theorem vector_trace {δ : Type} [RawDatatype δ] (st : MPIState)
    (c b s2 : Int) (old : δ) :
    (UserDatatype.vector st c b s2 old).1.trace =
      st.trace ++ [.typeVector c b s2 (RawDatatype.raw old) st.nextId,
                   .typeCommit (.user st.nextId)] := by
  simp [UserDatatype.vector, MPI_Type_vector, MPI_Type_commit]

/-- Lifecycle states fold along trace concatenation. -/
theorem lifecycleState_append (tr l2 : List MPIEvent) (h : MPI_Datatype) :
    lifecycleState (tr ++ l2) h =
      l2.foldl (fun s e => lifecycleStep s h e) (lifecycleState tr h) :=
  List.foldl_append _ _ _ _

/-- An event that does not name `h` leaves the lifecycle state of `h` alone. -/
theorem lifecycleStep_not_touches (s : DatatypeState) (h : MPI_Datatype)
    (e : MPIEvent) (hnt : e.touches h = false) : lifecycleStep s h e = s := by
  cases e <;> simp only [MPIEvent.touches, decide_eq_false_iff_not] at hnt <;>
    simp [lifecycleStep, hnt]

/-- A block of events none of which names `h` leaves the state of `h` alone. -/
theorem foldl_lifecycleStep_no_touch (l : List MPIEvent) (h : MPI_Datatype)
    (hnt : ∀ e ∈ l, e.touches h = false) (s : DatatypeState) :
    l.foldl (fun s e => lifecycleStep s h e) s = s := by
  induction l generalizing s with
  | nil => rfl
  | cons e rest ih =>
      simp only [List.foldl_cons]
      rw [lifecycleStep_not_touches s h e (hnt e (by simp))]
      exact ih (fun e2 he2 => hnt e2 (by simp [he2])) s

/-- A handle never named in the trace is still in the transient initial state. -/
theorem lifecycleState_of_no_touch (tr : List MPIEvent) (h : MPI_Datatype)
    (hnt : ∀ e ∈ tr, e.touches h = false) : lifecycleState tr h = .uninit :=
  foldl_lifecycleStep_no_touch tr h hnt .uninit

/-- A freed handle is named by some event of the trace. -/
theorem exists_touch_of_freed (tr : List MPIEvent) (h : MPI_Datatype)
    (hf : lifecycleState tr h = .freed) : ∃ e ∈ tr, e.touches h = true := by
  by_contra hc
  push_neg at hc
  have hu : lifecycleState tr h = .uninit :=
    lifecycleState_of_no_touch tr h (fun e he => by simpa using hc e he)
  rw [hu] at hf
  exact absurd hf (by decide)

/-- An event naming the runtime-created handle `user i` lists `i` among the
user ids it names. -/
theorem touches_user_mem_userIds (e : MPIEvent) (i : Nat)
    (ht : e.touches (MPI_Datatype.user i) = true) : i ∈ e.userIds := by
  cases e with
  | typeContiguous c o j =>
      simp only [MPIEvent.touches, decide_eq_true_eq, MPI_Datatype.user.injEq] at ht
      simp [MPIEvent.userIds, ht]
  | typeVector c b s2 o j =>
      simp only [MPIEvent.touches, decide_eq_true_eq, MPI_Datatype.user.injEq] at ht
      simp [MPIEvent.userIds, ht]
  | typeCommit h2 =>
      simp only [MPIEvent.touches, decide_eq_true_eq] at ht
      subst ht
      simp [MPIEvent.userIds]
  | typeFree h2 =>
      simp only [MPIEvent.touches, decide_eq_true_eq] at ht
      subst ht
      simp [MPIEvent.userIds]

/-- In a well-formed state, a runtime-created handle that has been freed was
drawn from the supply, so it can never collide with the next fresh id. -/
theorem freed_handle_not_fresh (st : MPIState) (hwf : st.wf) (i : Nat)
    (hf : lifecycleState st.trace (.user i) = .freed) : i < st.nextId := by
  obtain ⟨e, he, ht⟩ := exists_touch_of_freed st.trace (.user i) hf
  exact hwf e he i (touches_user_mem_userIds e i ht)

/-- The fresh handle a constructor is about to commit is distinct from any
handle already freed in a well-formed state. -/
theorem fresh_ne_freed (st : MPIState) (hwf : st.wf) (h : MPI_Datatype)
    (hf : lifecycleState st.trace h = .freed) :
    MPI_Datatype.user st.nextId ≠ h := by
  intro heq
  subst heq
  exact absurd (freed_handle_not_fresh st hwf st.nextId hf) (by omega)

end Lemmas

/-- C4: for every value of an equivalence-mapped scalar type, the Buffer
implementation reports `count() == 1`, and `send_address()` and
`receive_address()` (through a mutable borrow) equal the address of the value
itself. -/
theorem scalar_buffer_count_one_and_own_address {α : Type} [EquivalentDatatype α]
    (x : Loc α) :
    x.count = 1 ∧ x.send_address = x.addr ∧ x.receive_address = x.addr :=
  ⟨rfl, rfl, rfl⟩

/-- C5: for every non-empty slice of an equivalence-mapped element type,
`send_address()` equals the address of the slice's first element, and
`receive_address()` through a mutable borrow equals that same address. -/
theorem slice_buffer_address_is_first_element {α : Type} [EquivalentDatatype α]
    (s : Slice α) (_hne : s.data ≠ []) :
    s.send_address = s.elem_addr 0 ∧ s.receive_address = s.elem_addr 0 := by
  unfold Slice.send_address Slice.receive_address Slice.elem_addr
  omega

/-- Witness for C5 at a concrete one-element slice. -/
theorem slice_buffer_address_is_first_element_witness :
    (Slice.mk 100 1 [u8.mk 7]).data ≠ [] ∧
    ((Slice.mk 100 1 [u8.mk 7]).send_address = (Slice.mk 100 1 [u8.mk 7]).elem_addr 0 ∧
     (Slice.mk 100 1 [u8.mk 7]).receive_address = (Slice.mk 100 1 [u8.mk 7]).elem_addr 0) :=
  ⟨by decide, slice_buffer_address_is_first_element _ (by decide)⟩

/-- C6: for every slice, every count value and every descriptor reference,
`View::with_count_and_datatype` succeeds (it is total, performing no bound
check between the pair and the slice's byte extent), and reading back
`count()` and `datatype()` returns exactly the supplied count and descriptor
reference unchanged, while the addresses come from the underlying slice. -/
theorem view_count_and_datatype_passthrough {α δ : Type} [RawDatatype δ]
    (buffer : Slice α) (count : Int) (datatype : Ref δ) :
    (View.with_count_and_datatype buffer count datatype).count = count ∧
    (View.with_count_and_datatype buffer count datatype).datatype = datatype ∧
    (View.with_count_and_datatype buffer count datatype).send_address = buffer.addr ∧
    (View.with_count_and_datatype buffer count datatype).receive_address = buffer.addr :=
  ⟨rfl, rfl, rfl, rfl⟩

/-- C8: for every datatype-representing value, calling the raw handle accessor
on a reference to the value returns the same handle as calling it on the value
itself. -/
theorem raw_handle_through_reference {δ : Type} [RawDatatype δ] (d : δ) :
    RawDatatype.raw (Ref.mk d) = RawDatatype.raw d :=
  rfl

/-- C10: `UserDatatype::contiguous` and `UserDatatype::vector` validate
nothing: for every count, blocklength and stride (negative values included),
the arguments are forwarded unchanged to the foreign construct and commit
calls and a `UserDatatype` wrapping the produced handle is returned; both
functions are total, with no error branch of their own. -/
theorem constructors_forward_arguments_unvalidated {δ : Type} [RawDatatype δ]
    (st : MPIState) (count blocklength stride : Int) (oldtype : δ) :
    ((UserDatatype.contiguous st count oldtype).1.trace =
       st.trace ++ [.typeContiguous count (RawDatatype.raw oldtype) st.nextId,
                    .typeCommit (.user st.nextId)] ∧
     (UserDatatype.contiguous st count oldtype).2 = ⟨.user st.nextId⟩) ∧
    ((UserDatatype.vector st count blocklength stride oldtype).1.trace =
       st.trace ++ [.typeVector count blocklength stride (RawDatatype.raw oldtype) st.nextId,
                    .typeCommit (.user st.nextId)] ∧
     (UserDatatype.vector st count blocklength stride oldtype).2 = ⟨.user st.nextId⟩) :=
  ⟨⟨contiguous_trace st count oldtype, rfl⟩,
   ⟨vector_trace st count blocklength stride oldtype, rfl⟩⟩

/-- C9: for every slice whose length exceeds the signed 32-bit count range,
`count()` returns the length reduced modulo `2 ^ 32` and reinterpreted as a
two's-complement signed 32-bit value — the unique integer in
`[-2 ^ 31, 2 ^ 31)` congruent to the length — with no panic and no error (the
cast is an unconditional total function). -/
theorem slice_count_wraps_mod_two_pow_32 {α : Type} [EquivalentDatatype α]
    (s : Slice α) (_hov : 2 ^ 31 ≤ s.data.length) :
    s.count % 2 ^ 32 = (s.data.length : Int) % 2 ^ 32 ∧
    -(2 ^ 31) ≤ s.count ∧ s.count < 2 ^ 31 := by
  have h1 : s.data.length % 2 ^ 32 < 2 ^ 32 := Nat.mod_lt _ (by norm_num)
  unfold Slice.count usizeAsCount
  split <;> refine ⟨?_, ?_, ?_⟩ <;> omega

/-- Witness for C9 at a concrete slice of length `2 ^ 32`, whose wrapped count
is zero. -/
theorem slice_count_wraps_mod_two_pow_32_witness :
    2 ^ 31 ≤ wrapToZeroSlice.data.length ∧
    (wrapToZeroSlice.count % 2 ^ 32 = (wrapToZeroSlice.data.length : Int) % 2 ^ 32 ∧
     -(2 ^ 31) ≤ wrapToZeroSlice.count ∧ wrapToZeroSlice.count < 2 ^ 31) := by
  have hlen : wrapToZeroSlice.data.length = 2 ^ 32 := by
    show (List.replicate (2 ^ 32) (u8.mk 0)).length = 2 ^ 32
    rw [List.length_replicate]
  have hov : 2 ^ 31 ≤ wrapToZeroSlice.data.length := by
    rw [hlen]
    norm_num
  exact ⟨hov, slice_count_wraps_mod_two_pow_32 wrapToZeroSlice hov⟩

/-- C1 (evidence of the code bug): at a slice of length `2 ^ 31` — one past
the largest representable count — `count()` does not fail: it silently returns
the wrapped, negative value `-2 ^ 31`, which differs from the true length.
The source itself flags the cast with a FIXME asking for a checked cast. -/
theorem slice_count_overflow_does_not_fail :
    overflowSlice.count = -(2 ^ 31) ∧ ((2 ^ 31 : Nat) : Int) ≠ -(2 ^ 31) := by
  constructor
  · show usizeAsCount (List.replicate (2 ^ 31) (u8.mk 0)).length = -(2 ^ 31)
    rw [List.length_replicate]
    unfold usizeAsCount
    norm_num
  · norm_num

/-- C2: for every `UserDatatype`, destruction makes exactly one foreign free
call, and immediately after the (spec-conforming) free the stored handle
equals the null sentinel, so the assertion checked on every free passes;
whenever the handle observed after a free is not the null sentinel, the
assertion fails fatally rather than returning a recoverable condition. -/
theorem drop_frees_once_then_asserts_null (st : MPIState) (d : UserDatatype) :
    (UserDatatype.drop st d).1.trace = st.trace ++ [.typeFree d.handle] ∧
    (UserDatatype.drop st d).2.1 = ffi.RSMPI_DATATYPE_NULL ∧
    (UserDatatype.drop st d).2.2 = .ok ∧
    ∀ freeImpl : MPI_Datatype → MPI_Datatype,
      freeImpl d.handle ≠ ffi.RSMPI_DATATYPE_NULL →
      (UserDatatype.dropWith freeImpl st d).2.2 = .assertFailed (freeImpl d.handle) := by
  refine ⟨rfl, rfl, ?_, ?_⟩
  · simp [UserDatatype.drop, UserDatatype.dropWith, MPI_Type_free]
  · intro freeImpl h
    simp [UserDatatype.dropWith, h]

/-- Witness for C2 at a concrete datatype, with a non-conforming free that
leaves the handle untouched: the assertion fails fatally. -/
theorem drop_frees_once_then_asserts_null_witness :
    (fun h : MPI_Datatype => h) (UserDatatype.mk (.user 0)).handle ≠ ffi.RSMPI_DATATYPE_NULL ∧
    (UserDatatype.dropWith (fun h : MPI_Datatype => h) sampleFreedState ⟨.user 0⟩).2.2 =
      .assertFailed ((fun h : MPI_Datatype => h) (UserDatatype.mk (.user 0)).handle) :=
  ⟨by decide, (drop_frees_once_then_asserts_null sampleFreedState ⟨.user 0⟩).2.2.2
      (fun h : MPI_Datatype => h) (by decide)⟩

/-- C3: the equivalence registry is the fixed closed table written in the ten
macro invocations (so repeated calls of `equivalent_datatype()` always return
the same stable descriptor — the mapping is a pure function of the kind);
distinct kinds map to distinct descriptor identifiers; and both a single value
of `T` and a slice of `T` report this same descriptor through `datatype()`. -/
theorem equivalent_datatype_stable_injective_lifted :
    (∀ k : ScalarKind, k.descriptor = ⟨k.systemHandle⟩) ∧
    (∀ k1 k2 : ScalarKind, k1 ≠ k2 →
      k1.descriptor.handle ≠ k2.descriptor.handle) ∧
    (∀ (α : Type) [inst : EquivalentDatatype α] (x : Loc α) (s : Slice α),
      x.datatype = @EquivalentDatatype.equivalent_datatype α inst ∧
      s.datatype = @EquivalentDatatype.equivalent_datatype α inst) := by
  refine ⟨?_, ?_, ?_⟩
  · intro k
    cases k <;> rfl
  · decide
  · intro α inst x s
    exact ⟨rfl, rfl⟩

/-- Witness for C3 at the concrete pair of kinds `f32` and `f64`. -/
theorem equivalent_datatype_stable_injective_lifted_witness :
    ScalarKind.kf32 ≠ ScalarKind.kf64 ∧
    ScalarKind.kf32.descriptor.handle ≠ ScalarKind.kf64.descriptor.handle :=
  ⟨by decide, equivalent_datatype_stable_injective_lifted.2.1 ScalarKind.kf32
      ScalarKind.kf64 (by decide)⟩

/-- C7: both composite constructors perform the foreign construct call and the
commit call back-to-back (the trace grows by exactly those two adjacent
events) and return a handle whose lifecycle state is `committed`, so no
uncommitted datatype is ever observable; destruction moves the handle to the
terminal `freed` state with exactly one free event; and in a well-formed
state no operation of this layer brings a freed handle back to `committed` —
there is no re-entry from `freed`. -/
theorem composite_lifecycle_state_machine :
    (∀ (δ : Type) [inst : RawDatatype δ] (st : MPIState) (c : Int) (old : δ),
       (UserDatatype.contiguous st c old).1.trace =
         st.trace ++ [.typeContiguous c (RawDatatype.raw old) st.nextId,
                      .typeCommit (.user st.nextId)] ∧
       lifecycleState (UserDatatype.contiguous st c old).1.trace
         (UserDatatype.contiguous st c old).2.handle = .committed) ∧
    (∀ (δ : Type) [inst : RawDatatype δ] (st : MPIState) (c b s2 : Int) (old : δ),
       (UserDatatype.vector st c b s2 old).1.trace =
         st.trace ++ [.typeVector c b s2 (RawDatatype.raw old) st.nextId,
                      .typeCommit (.user st.nextId)] ∧
       lifecycleState (UserDatatype.vector st c b s2 old).1.trace
         (UserDatatype.vector st c b s2 old).2.handle = .committed) ∧
    (∀ (st : MPIState) (d : UserDatatype),
       (UserDatatype.drop st d).1.trace = st.trace ++ [.typeFree d.handle] ∧
       lifecycleState (UserDatatype.drop st d).1.trace d.handle = .freed) ∧
    (∀ (st : MPIState) (h : MPI_Datatype), st.wf →
       lifecycleState st.trace h = .freed →
       (∀ (δ : Type) [inst : RawDatatype δ] (c : Int) (old : δ),
          lifecycleState (UserDatatype.contiguous st c old).1.trace h = .freed) ∧
       (∀ (δ : Type) [inst : RawDatatype δ] (c b s2 : Int) (old : δ),
          lifecycleState (UserDatatype.vector st c b s2 old).1.trace h = .freed) ∧
       (∀ d : UserDatatype,
          lifecycleState (UserDatatype.drop st d).1.trace h = .freed)) := by
  refine ⟨?_, ?_, ?_, ?_⟩
  · intro δ inst st c old
    refine ⟨contiguous_trace st c old, ?_⟩
    have hh : (UserDatatype.contiguous st c old).2.handle = .user st.nextId := rfl
    rw [hh, contiguous_trace st c old, lifecycleState_append]
    simp [lifecycleStep]
  · intro δ inst st c b s2 old
    refine ⟨vector_trace st c b s2 old, ?_⟩
    have hh : (UserDatatype.vector st c b s2 old).2.handle = .user st.nextId := rfl
    rw [hh, vector_trace st c b s2 old, lifecycleState_append]
    simp [lifecycleStep]
  · intro st d
    refine ⟨rfl, ?_⟩
    have htr : (UserDatatype.drop st d).1.trace = st.trace ++ [.typeFree d.handle] := rfl
    rw [htr, lifecycleState_append]
    simp [lifecycleStep]
  · intro st h hwf hf
    have hne := fresh_ne_freed st hwf h hf
    refine ⟨?_, ?_, ?_⟩
    · intro δ inst c old
      have t1 : (MPIEvent.typeContiguous c (RawDatatype.raw old) st.nextId).touches h = false := by
        simp [MPIEvent.touches, hne]
      have t2 : (MPIEvent.typeCommit (.user st.nextId)).touches h = false := by
        simp [MPIEvent.touches, hne]
      rw [contiguous_trace st c old, lifecycleState_append, hf]
      simp only [List.foldl_cons, List.foldl_nil]
      rw [lifecycleStep_not_touches _ _ _ t1, lifecycleStep_not_touches _ _ _ t2]
    · intro δ inst c b s2 old
      have t1 : (MPIEvent.typeVector c b s2 (RawDatatype.raw old) st.nextId).touches h = false := by
        simp [MPIEvent.touches, hne]
      have t2 : (MPIEvent.typeCommit (.user st.nextId)).touches h = false := by
        simp [MPIEvent.touches, hne]
      rw [vector_trace st c b s2 old, lifecycleState_append, hf]
      simp only [List.foldl_cons, List.foldl_nil]
      rw [lifecycleStep_not_touches _ _ _ t1, lifecycleStep_not_touches _ _ _ t2]
    · intro d
      have htr : (UserDatatype.drop st d).1.trace = st.trace ++ [.typeFree d.handle] := rfl
      rw [htr, lifecycleState_append, hf]
      simp only [List.foldl_cons, List.foldl_nil]
      by_cases hdh : d.handle = h <;> simp [lifecycleStep, hdh]

/-- Witness for C7: in a concrete well-formed state whose handle `user 0` has
been freed, running a further contiguous construction leaves that handle
freed. -/
theorem composite_lifecycle_state_machine_witness :
    sampleFreedState.wf ∧
    lifecycleState sampleFreedState.trace (.user 0) = .freed ∧
    lifecycleState
      (UserDatatype.contiguous sampleFreedState 3 (SystemDatatype.mk .float)).1.trace
      (.user 0) = .freed :=
  ⟨by decide, by decide,
   (composite_lifecycle_state_machine.2.2.2 sampleFreedState (.user 0)
      (by decide) (by decide)).1 SystemDatatype 3 (SystemDatatype.mk .float)⟩
